import Mathlib

set_option maxHeartbeats 1000000

namespace MyPortal

/-! # Model of the my-portal news card manager and visitor counter

Shallow embedding of `news_manager/news_card_manager.py` and
`visitor_counter/visitor_counter.py`.  The JSON documents on disk are
modelled as Lean structures; each HTTP handler becomes a pure function
from the request data and the current store contents to the response
and the store contents after the call (a read-modify-write against a
single backing file). -/

/-- A news card as stored in `data/news.json` (see `create_card`, which
builds exactly these fields). -/
structure Card where
  id : String
  title : String
  content : String
  date : String
  date_display : String
  visible : Bool
  created_at : String
deriving DecidableEq, Repr

/-- The whole backing document `{"cards": [...]}`. -/
structure NewsData where
  cards : List Card
deriving DecidableEq, Repr

/-- Error responses of the card API: `validation` is an HTTP 400 body,
`notFound` an HTTP 404 body. -/
inductive ApiError where
  | validation (msg : String)
  | notFound (msg : String)
deriving DecidableEq, Repr

/-- A JSON request body, modelled as an ordered dictionary with string
values (the card API only reads string fields).  Python's `not body`
is `List.isEmpty`, `"k" in body` is key membership, `body["k"]` /
`body.get("k")` read the (unique) entry for the key. -/
abbrev JsonBody := List (String × String)

/-- `body.get(k)`: the value stored at key `k`, if present. -/
def JsonBody.getVal (b : JsonBody) (k : String) : Option String :=
  (b.find? (fun p => p.1 == k)).map (fun p => p.2)

/-- The in-place mutation loop pattern
`for card in data["cards"]: if <p card>: <mutate card>; return` —
rewrite the first element satisfying `p` with `f`, returning the new
list and the rewritten element. -/
def modifyFirst (p : Card → Bool) (f : Card → Card) : List Card → Option (List Card × Card)
  | [] => none
  | c :: cs =>
    if p c then some (f c :: cs, f c)
    else (modifyFirst p f cs).map (fun r => (c :: r.1, r.2))

/-- The body of `update_card`'s loop: assign `card["title"]` when
`"title" in body`, `card["content"]` when `"content" in body`. -/
def applyUpdate (body : JsonBody) (c : Card) : Card :=
  let c1 := match body.getVal "title" with
    | some t => { c with title := t }
    | none => c
  match body.getVal "content" with
    | some v => { c1 with content := v }
    | none => c1

/-- `PUT /api/cards/<card_id>` (`update_card`): reject an empty body
(`if not body`) with 400; otherwise update the first card whose id
matches and save, or 404 without saving.  Returns the response and the
store contents afterwards. -/
def update_card (card_id : String) (body : JsonBody) (data : NewsData) :
    Except ApiError Card × NewsData :=
  if body.isEmpty then
    (.error (.validation "リクエストボディが必要です"), data)
  else
    match modifyFirst (fun c => c.id == card_id) (applyUpdate body) data.cards with
    | some (cs, c) => (.ok c, ⟨cs⟩)
    | none => (.error (.notFound "カードが見つかりません"), data)

/-- `DELETE /api/cards/<card_id>` (`delete_card`): filter the card out;
if the length is unchanged answer 404 and do not save. -/
def delete_card (card_id : String) (data : NewsData) :
    Except ApiError Unit × NewsData :=
  let filtered := data.cards.filter (fun c => !(c.id == card_id))
  if filtered.length = data.cards.length then
    (.error (.notFound "カードが見つかりません"), data)
  else
    (.ok (), ⟨filtered⟩)

/-- The body of `toggle_card`'s loop:
`card["visible"] = not card["visible"]`. -/
def flipVisible (c : Card) : Card := { c with visible := !c.visible }

/-- `PATCH /api/cards/<card_id>/toggle` (`toggle_card`): flip `visible`
on the first card whose id matches and save, else 404 without saving. -/
def toggle_card (card_id : String) (data : NewsData) :
    Except ApiError Card × NewsData :=
  match modifyFirst (fun c => c.id == card_id) flipVisible data.cards with
  | some (cs, c) => (.ok c, ⟨cs⟩)
  | none => (.error (.notFound "カードが見つかりません"), data)

/-- A sample card (shape produced by `create_card`). -/
def c0 : Card :=
  { id := "news-20260101-item", title := "t", content := "c", date := "2026-01-01",
    date_display := "2026年1月1日", visible := true,
    created_at := "2026-01-01T00:00:00" }

/-- Needle is a prefix of the haystack (on character lists). -/
def charsHavePre : List Char → List Char → Bool
  | [], _ => true
  | _ :: _, [] => false
  | a :: as, b :: bs => a == b && charsHavePre as bs

/-- Needle occurs somewhere in the haystack (on character lists). -/
def charsHaveSub (needle : List Char) : List Char → Bool
  | [] => needle.isEmpty
  | b :: bs => charsHavePre needle (b :: bs) || charsHaveSub needle bs

/-- Python's `needle in hay` substring test on strings. -/
def strContainsSub (hay needle : String) : Bool :=
  charsHaveSub needle.data hay.data

/-- `detect_os`: first match in the ordered `OS_PATTERNS` list (each
regex there is an alternation of literal substrings searched with
`re.search`), falling back to "Other"; an empty user agent is
"Other". -/
def detect_os (ua : String) : String :=
  if ua = "" then "Other"
  else if strContainsSub ua "CrOS" then "ChromeOS"
  else if strContainsSub ua "iPhone" || strContainsSub ua "iPad" ||
      strContainsSub ua "iPod" then "iOS"
  else if strContainsSub ua "Android" then "Android"
  else if strContainsSub ua "Windows" then "Windows"
  else if strContainsSub ua "Macintosh" || strContainsSub ua "Mac OS X" then "macOS"
  else if strContainsSub ua "Linux" then "Linux"
  else "Other"

/-- Per-day record inside `daily`. -/
structure DayStats where
  total : Nat
  by_os : List (String × Nat)
deriving DecidableEq, Repr

/-- The backing document `data/visitors.json`. -/
structure VisitorStats where
  total : Nat
  by_os : List (String × Nat)
  daily : List (String × DayStats)
deriving DecidableEq, Repr

/-- Python dictionary read `m.get(k)`, modelled on an ordered
association list with unique keys. -/
def dictGet {α : Type} (m : List (String × α)) (k : String) : Option α :=
  (m.find? (fun p => p.1 == k)).map (fun p => p.2)

/-- Python dictionary write `m[k] = v`: overwrite in place, or append a
new entry at the end (insertion order). -/
def dictSet {α : Type} : List (String × α) → String → α → List (String × α)
  | [], k, v => [(k, v)]
  | (k', v') :: rest, k, v =>
    if k' == k then (k, v) :: rest else (k', v') :: dictSet rest k v

/-- `load_data`: a missing backing file yields the default empty stats
document `{"total": 0, "by_os": {}, "daily": {}}`; otherwise the
parsed file contents. -/
def load_data : Option VisitorStats → VisitorStats
  | none => { total := 0, by_os := [], daily := [] }
  | some d => d

/-- The correlation cookies and user agent presented by the client. -/
structure VisitReq where
  visitor_id : Option String
  last_visit : Option String
  user_agent : String
deriving DecidableEq, Repr

/-- The JSON body of the `/api/visit` response plus the cookies set on
it (`none` when the deduplicated branch sets no cookies). -/
structure VisitResp where
  counted : Bool
  total : Nat
  by_os : List (String × Nat)
  cookies : Option (String × String)
deriving DecidableEq, Repr

/-- Lines 87–96 of `record_visit`: one logical count — `total`, one
`by_os` entry, and today's `daily` record (its `total` and one of its
`by_os` entries) incremented together before the single `save_data`. -/
def countVisit (today os_name : String) (data : VisitorStats) : VisitorStats :=
  let total' := data.total + 1
  let by_os' := dictSet data.by_os os_name ((dictGet data.by_os os_name).getD 0 + 1)
  let day := (dictGet data.daily today).getD { total := 0, by_os := [] }
  let day' : DayStats :=
    { total := day.total + 1,
      by_os := dictSet day.by_os os_name ((dictGet day.by_os os_name).getD 0 + 1) }
  { total := total', by_os := by_os', daily := dictSet data.daily today day' }

/-- `POST /api/visit` (`record_visit`): `today` is the server date,
`freshId` the `uuid4` drawn for a first-time visitor, `fs` the backing
file contents (`none` when absent).  Python's `if visitor_id and
last_visit == today` skips the count; otherwise the visit is counted
and both cookies are (re)set.  Returns the response and the file
contents after the call. -/
def record_visit (today freshId : String) (req : VisitReq) (fs : Option VisitorStats) :
    VisitResp × Option VisitorStats :=
  if (req.visitor_id.getD "" != "") && (req.last_visit == some today) then
    let data := load_data fs
    ({ counted := false, total := data.total, by_os := data.by_os, cookies := none }, fs)
  else
    let vid := if req.visitor_id.getD "" = "" then freshId else req.visitor_id.getD ""
    let os_name := detect_os req.user_agent
    let data := countVisit today os_name (load_data fs)
    ({ counted := true, total := data.total, by_os := data.by_os,
       cookies := some (vid, today) }, some data)

/-- `total` compared against the sum of all per-day totals. -/
def sumDaily (data : VisitorStats) : Nat :=
  (data.daily.map (fun p => p.2.total)).sum

/-- A chain of `/api/visit` calls against the store, threading the file
contents (each event: server date, fresh uuid, request). -/
def runVisits (events : List (String × String × VisitReq))
    (fs : Option VisitorStats) : Option VisitorStats :=
  events.foldl (fun s e => (record_visit e.1 e.2.1 e.2.2 s).2) fs

/-- A concrete stats document satisfying the `total = Σ daily`
invariant, used by witnesses. -/
def d1 : VisitorStats :=
  { total := 2, by_os := [("Windows", 2)],
    daily := [("2026-10-11", { total := 2, by_os := [("Windows", 2)] })] }

/-- Failure classification of the card store: `open(DATA_FILE)` on a
missing `data/news.json` raises Python's `FileNotFoundError`. -/
inductive StoreError where
  | fileNotFound
deriving DecidableEq, Repr

/-- `load_cards`: reads the backing file with no existence check; a
missing file is the `FileNotFoundError` failure, otherwise the parsed
document. -/
def load_cards : Option NewsData → Except StoreError NewsData
  | none => .error .fileNotFound
  | some d => .ok d

/-- `GET /api/cards` (`get_cards`): returns the card list; a failure
of `load_cards` is not caught by the handler, so the request fails
(Flask answers HTTP 500). -/
def get_cards (fs : Option NewsData) : Except StoreError (List Card) :=
  (load_cards fs).map (fun d => d.cards)

/-- `GET /api/stats` (`get_stats`): `(total, by_os, daily)` of the
loaded document; the visitor-stats read never fails — `load_data` has
already replaced a missing file by the default document. -/
def get_stats (fs : Option VisitorStats) :
    Nat × List (String × Nat) × List (String × DayStats) :=
  let data := load_data fs
  (data.total, data.by_os, data.daily)

/-- HTML-escape: replace `&` first (avoiding double escaping), then
`<` and `>` (`str.replace` chain applied to `title` and `content`). -/
def escapeHtml (s : String) : String :=
  ((s.replace "&" "&amp;").replace "<" "&lt;").replace ">" "&gt;"

/-- The fixed page template before the `articles` splice point
(lines 218–361 of `generate_news_html`). -/
def htmlPre : String :=
  "<!DOCTYPE html>\n<html lang=\"ja\">\n<head>\n    <meta charset=\"UTF-8\">\n    <meta name=\"viewport\" content=\"width=device-width, initial-scale=1.0\">\n    <title>お知らせ - My Portal</title>\n    <style>\n        * \x7b margin: 0; padding: 0; box-sizing: border-box; \x7d\n        body \x7b\n            font-family: -apple-system, BlinkMacSystemFont, \"Segoe UI\", Roboto, \"Hiragino Sans\", sans-serif;\n            background-color: #ffffff;\n            color: #333;\n            min-height: 100vh;\n            display: flex;\n            flex-direction: column;\n        \x7d\n        header \x7b padding: 2rem; text-align: center; border-bottom: 1px solid #eee; \x7d\n        header h1 \x7b font-size: 1.8rem; font-weight: 300; \x7d\n        main \x7b flex: 1; padding: 2rem; max-width: 800px; margin: 0 auto; width: 100%; \x7d\n        .news-item \x7b background: #f9f9f9; padding: 1.5rem; border-radius: 8px; margin-bottom: 1.5rem; position: relative; \x7d\n        .news-item h3 \x7b font-size: 1.1rem; margin-bottom: 0.5rem; \x7d\n        .news-item .date \x7b font-size: 0.85rem; color: #888; margin-bottom: 0.8rem; \x7d\n        .news-item p \x7b line-height: 1.6; \x7d\n        .back-link \x7b display: block; text-align: center; margin-top: 2rem; color: #666; text-decoration: none; \x7d\n        .back-link:hover \x7b color: #333; \x7d\n        footer \x7b padding: 1rem; text-align: center; border-top: 1px solid #eee; font-size: 0.8rem; color: #999; \x7d\n\n        /* 管理者モード */\n        .admin-toggle \x7b\n            cursor: pointer;\n            user-select: none;\n            color: #ccc;\n            font-size: 0.75rem;\n            transition: color 0.2s;\n        \x7d\n        .admin-toggle:hover \x7b color: #999; \x7d\n        .admin-toggle.active \x7b color: #e74c3c; \x7d\n\n        .visibility-btn \x7b\n            display: none;\n            position: absolute;\n            top: 1rem;\n            right: 1rem;\n            border: none;\n            border-radius: 6px;\n            padding: 0.4rem 0.8rem;\n            font-size: 0.8rem;\n            cursor: pointer;\n            transition: all 0.2s;\n        \x7d\n        .visibility-btn.showing \x7b background: #27ae60; color: #fff; \x7d\n        .visibility-btn.hidden \x7b background: #e74c3c; color: #fff; \x7d\n        .visibility-btn:hover \x7b opacity: 0.85; \x7d\n\n        body.admin-mode .visibility-btn \x7b display: block; \x7d\n        body.admin-mode .news-item.is-hidden \x7b\n            opacity: 0.4;\n            border: 2px dashed #e74c3c;\n        \x7d\n\n        .admin-bar \x7b\n            display: none;\n            background: #fff3cd;\n            border: 1px solid #ffc107;\n            border-radius: 8px;\n            padding: 0.8rem 1.2rem;\n            margin-bottom: 1.5rem;\n            font-size: 0.9rem;\n            color: #856404;\n            text-align: center;\n        \x7d\n        .admin-bar .logout-btn \x7b\n            background: #dc3545;\n            color: #fff;\n            border: none;\n            border-radius: 4px;\n            padding: 0.3rem 0.8rem;\n            margin-left: 1rem;\n            font-size: 0.8rem;\n            cursor: pointer;\n        \x7d\n        .admin-bar .logout-btn:hover \x7b opacity: 0.85; \x7d\n        body.admin-mode .admin-bar \x7b display: block; \x7d\n\n        /* パスワードダイアログ */\n        .pw-overlay \x7b\n            display: none;\n            position: fixed;\n            top: 0; left: 0; right: 0; bottom: 0;\n            background: rgba(0,0,0,0.4);\n            z-index: 1000;\n            justify-content: center;\n            align-items: center;\n        \x7d\n        .pw-overlay.show \x7b display: flex; \x7d\n        .pw-dialog \x7b\n            background: #fff;\n            border-radius: 12px;\n            padding: 2rem;\n            width: 320px;\n            box-shadow: 0 8px 32px rgba(0,0,0,0.2);\n            text-align: center;\n        \x7d\n        .pw-dialog h3 \x7b font-size: 1rem; margin-bottom: 1rem; font-weight: 500; \x7d\n        .pw-dialog input \x7b\n            width: 100%;\n            padding: 0.6rem 0.8rem;\n            border: 1px solid #ddd;\n            border-radius: 6px;\n            font-size: 0.95rem;\n            outline: none;\n        \x7d\n        .pw-dialog input:focus \x7b border-color: #666; \x7d\n        .pw-dialog .pw-actions \x7b\n            margin-top: 1rem;\n            display: flex;\n            gap: 0.5rem;\n        \x7d\n        .pw-dialog .pw-actions button \x7b\n            flex: 1;\n            padding: 0.5rem;\n            border: none;\n            border-radius: 6px;\n            font-size: 0.9rem;\n            cursor: pointer;\n        \x7d\n        .pw-dialog .btn-login \x7b background: #333; color: #fff; \x7d\n        .pw-dialog .btn-login:hover \x7b background: #555; \x7d\n        .pw-dialog .btn-cancel \x7b background: #eee; color: #333; \x7d\n        .pw-dialog .btn-cancel:hover \x7b background: #ddd; \x7d\n        .pw-error \x7b color: #e74c3c; font-size: 0.8rem; margin-top: 0.5rem; min-height: 1.2em; \x7d\n    </style>\n</head>\n<body>\n    <header>\n        <h1>お知らせ</h1>\n    </header>\n    <main>\n        <div class=\"admin-bar\">\n            管理者モード — 各お知らせの表示/非表示を切り替えできます\n            <button class=\"logout-btn\" onclick=\"logoutAdmin()\">ログアウト</button>\n        </div>\n\n"

/-- The fixed page template after the `articles` splice point
(lines 361–504 of `generate_news_html`). -/
def htmlPost : String :=
  "        <a href=\"index.html\" class=\"back-link\">← トップに戻る</a>\n    </main>\n    <footer>\n        <p>&copy; 2026 My Portal <span class=\"admin-toggle\" id=\"adminToggle\" onclick=\"toggleAdmin()\">&#9881;</span></p>\n    </footer>\n\n    <!-- パスワードダイアログ -->\n    <div class=\"pw-overlay\" id=\"pwOverlay\">\n        <div class=\"pw-dialog\">\n            <h3>管理者パスワード</h3>\n            <input type=\"password\" id=\"pwInput\" placeholder=\"パスワードを入力\">\n            <div class=\"pw-error\" id=\"pwError\"></div>\n            <div class=\"pw-actions\">\n                <button class=\"btn-cancel\" onclick=\"closePwDialog()\">キャンセル</button>\n                <button class=\"btn-login\" onclick=\"submitPassword()\">ログイン</button>\n            </div>\n        </div>\n    </div>\n\n    <script>\n        var STORAGE_KEY = \x27portal_news_hidden\x27;\n        var AUTH_KEY = \x27portal_news_admin\x27;\n        var ADMIN_HASH = \x275fac9782738bc55eeb2688891075f9e37fb6779d5f31786acc0d259ec5b3a2e7\x27;\n        var adminMode = false;\n\n        // SHA-256\n        async function sha256(text) \x7b\n            var data = new TextEncoder().encode(text);\n            var buf = await crypto.subtle.digest(\x27SHA-256\x27, data);\n            return Array.from(new Uint8Array(buf)).map(function(b) \x7b\n                return b.toString(16).padStart(2, \x270\x27);\n            \x7d).join(\x27\x27);\n        \x7d\n\n        // --- 表示/非表示管理 ---\n        function getHiddenIds() \x7b\n            try \x7b return JSON.parse(localStorage.getItem(STORAGE_KEY)) || []; \x7d\n            catch(e) \x7b return []; \x7d\n        \x7d\n\n        function saveHiddenIds(ids) \x7b\n            localStorage.setItem(STORAGE_KEY, JSON.stringify(ids));\n        \x7d\n\n        function applyVisibility() \x7b\n            var hiddenIds = getHiddenIds();\n            document.querySelectorAll(\x27.news-item\x27).forEach(function(item) \x7b\n                var id = item.getAttribute(\x27data-news-id\x27);\n                var isHidden = hiddenIds.indexOf(id) !== -1;\n                var btn = item.querySelector(\x27.visibility-btn\x27);\n\n                if (isHidden) \x7b\n                    item.classList.add(\x27is-hidden\x27);\n                    item.style.display = adminMode ? \x27\x27 : \x27none\x27;\n                    btn.textContent = \x27非表示中\x27;\n                    btn.className = \x27visibility-btn hidden\x27;\n                \x7d else \x7b\n                    item.classList.remove(\x27is-hidden\x27);\n                    item.style.display = \x27\x27;\n                    btn.textContent = \x27表示中\x27;\n                    btn.className = \x27visibility-btn showing\x27;\n                \x7d\n            \x7d);\n        \x7d\n\n        function toggleVisibility(btn) \x7b\n            var item = btn.closest(\x27.news-item\x27);\n            var id = item.getAttribute(\x27data-news-id\x27);\n            var hiddenIds = getHiddenIds();\n            var idx = hiddenIds.indexOf(id);\n            if (idx !== -1) hiddenIds.splice(idx, 1);\n            else hiddenIds.push(id);\n            saveHiddenIds(hiddenIds);\n            applyVisibility();\n        \x7d\n\n        // --- 管理者認証 ---\n        function enterAdmin() \x7b\n            adminMode = true;\n            document.body.classList.add(\x27admin-mode\x27);\n            document.getElementById(\x27adminToggle\x27).classList.add(\x27active\x27);\n            sessionStorage.setItem(AUTH_KEY, \x271\x27);\n            applyVisibility();\n        \x7d\n\n        function logoutAdmin() \x7b\n            adminMode = false;\n            document.body.classList.remove(\x27admin-mode\x27);\n            document.getElementById(\x27adminToggle\x27).classList.remove(\x27active\x27);\n            sessionStorage.removeItem(AUTH_KEY);\n            applyVisibility();\n        \x7d\n\n        function toggleAdmin() \x7b\n            if (adminMode) \x7b\n                logoutAdmin();\n                return;\n            \x7d\n            if (sessionStorage.getItem(AUTH_KEY) === \x271\x27) \x7b\n                enterAdmin();\n                return;\n            \x7d\n            openPwDialog();\n        \x7d\n\n        // --- パスワードダイアログ ---\n        function openPwDialog() \x7b\n            document.getElementById(\x27pwOverlay\x27).classList.add(\x27show\x27);\n            document.getElementById(\x27pwInput\x27).value = \x27\x27;\n            document.getElementById(\x27pwError\x27).textContent = \x27\x27;\n            document.getElementById(\x27pwInput\x27).focus();\n        \x7d\n\n        function closePwDialog() \x7b\n            document.getElementById(\x27pwOverlay\x27).classList.remove(\x27show\x27);\n        \x7d\n\n        async function submitPassword() \x7b\n            var input = document.getElementById(\x27pwInput\x27).value;\n            if (!input) return;\n            var hash = await sha256(input);\n            if (hash === ADMIN_HASH) \x7b\n                closePwDialog();\n                enterAdmin();\n            \x7d else \x7b\n                document.getElementById(\x27pwError\x27).textContent = \x27パスワードが違います\x27;\n                document.getElementById(\x27pwInput\x27).value = \x27\x27;\n                document.getElementById(\x27pwInput\x27).focus();\n            \x7d\n        \x7d\n\n        document.getElementById(\x27pwInput\x27).addEventListener(\x27keypress\x27, function(e) \x7b\n            if (e.key === \x27Enter\x27) submitPassword();\n        \x7d);\n\n        document.getElementById(\x27pwOverlay\x27).addEventListener(\x27click\x27, function(e) \x7b\n            if (e.target === this) closePwDialog();\n        \x7d);\n\n        // ページ読み込み時\n        applyVisibility();\n    </script>\n</body>\n</html>"

/-- One `<article>` block of the loop in `generate_news_html`: the
escaped `title` and `content` together with `date_display` and `id`
(the latter two embedded verbatim).  The literal chunks concatenate to
exactly the f-string of the source (split at the splice points). -/
def articleFor (c : Card) : String :=
  "        <article class=\"news-item\" " ++ "data-news-id=\"" ++ c.id ++ "\">" ++
  "\n            <button class=\"visibility-btn\" onclick=\"toggleVisibility(this)\"></button>\n            <h3>" ++
  escapeHtml c.title ++ "</h3>\n            <div class=\"date\">" ++ c.date_display ++
  "</div>\n            <p>" ++ escapeHtml c.content ++ "</p>\n        </article>\n"

/-- The `articles` accumulator: one block per card, in order. -/
def articlesOf : List Card → String
  | [] => ""
  | c :: cs => articleFor c ++ articlesOf cs

/-- `generate_news_html`: keep the visible cards (in their existing
order) and splice their article blocks into the fixed page template. -/
def generate_news_html (cards : List Card) : String :=
  htmlPre ++ articlesOf (cards.filter (fun c => c.visible)) ++ htmlPost

/-- `n` occurs as a contiguous substring of `h`. -/
def SubStr (n h : String) : Prop :=
  ∃ s t, h.data = s ++ n.data ++ t

/-- A visible card, and (below) a hidden card `cH` whose `title`
happens to be the same text as this card's `date_display`. -/
def cV : Card :=
  { id := "news-20260101-a", title := "x", content := "y", date := "2026-01-01",
    date_display := "2026年1月1日", visible := true,
    created_at := "2026-01-01T00:00:00" }

/-- See `cV`. -/
def cH : Card :=
  { id := "news-20260102-b", title := "2026年1月1日", content := "z",
    date := "2026-01-02", date_display := "2026年1月2日", visible := false,
    created_at := "2026-01-02T00:00:00" }

/-- The candidate id `f"{card_id}-{i}"` probed by the collision loop
(`Nat.repr` is Python's decimal `str(i)`). -/
def candId (base : String) (i : Nat) : String := base ++ "-" ++ Nat.repr i

/-- The collision loop `i = 2; while f"{card_id}-{i}" in existing_ids:
i += 1` with explicit fuel.  `create_card` passes fuel
`existing_ids.length + 1`, which always suffices (`probeId_spec` with
`exists_free_cand`), so the fuel-exhausted fallback is unreachable. -/
def probeId (base : String) (ids : List String) : Nat → Nat → String
  | 0, i => candId base i
  | fuel + 1, i =>
    if candId base i ∈ ids then probeId base ids fuel (i + 1)
    else candId base i

/-- The JSON body of `POST /api/cards` (three optional string fields;
`body.get("slug", "item")` is `slug.getD "item"`, `not body.get("k")`
is `getD "" = ""`, covering both a missing and an empty field). -/
structure CreateBody where
  title : Option String
  content : Option String
  slug : Option String
deriving DecidableEq, Repr

/-- The pieces of `datetime.now()` read by `create_card`: `dateStr` is
`strftime("%Y-%m-%d")`, the numeric fields feed `date_display`, and
`isoSeconds` is `isoformat(timespec="seconds")`. -/
structure Now where
  dateStr : String
  year : Nat
  month : Nat
  day : Nat
  isoSeconds : String
deriving DecidableEq, Repr

/-- The duplicate-id check of `create_card` (lines 136–142): keep the
generated id when it is not among the existing ids, otherwise run the
suffix probe starting at 2. -/
def newCardId (base : String) (ids : List String) : String :=
  if base ∈ ids then probeId base ids (ids.length + 1) 2 else base

/-- `POST /api/cards` (`create_card`): 400 when `title` or `content`
is missing or empty; otherwise build the card with id
`news-<YYYYMMDD>-<slug>` (`<YYYYMMDD>` is `date_str.replace("-", "")`,
slug defaulting to "item"); when that id collides with an existing
one, probe suffixes `-2`, `-3`, … until free; insert the card at the
head of the sequence, save, and return it (HTTP 201). -/
def create_card (body : CreateBody) (now : Now) (data : NewsData) :
    Except ApiError Card × NewsData :=
  if body.title.getD "" = "" ∨ body.content.getD "" = "" then
    (.error (.validation "title と content は必須です"), data)
  else
    let date_str := now.dateStr
    let slug := body.slug.getD "item"
    let card_id := "news-" ++ (date_str.replace "-" "") ++ "-" ++ slug
    let existing_ids := data.cards.map (fun c => c.id)
    let card : Card :=
      { id := newCardId card_id existing_ids,
        title := body.title.getD "", content := body.content.getD "",
        date := date_str,
        date_display := Nat.repr now.year ++ "年" ++ Nat.repr now.month ++ "月" ++
          Nat.repr now.day ++ "日",
        visible := true, created_at := now.isoSeconds }
    (.ok card, ⟨card :: data.cards⟩)

/-- The ambient clock used by concrete instances. -/
def now0 : Now :=
  { dateStr := "2026-10-12", year := 2026, month := 10, day := 12,
    isoSeconds := "2026-10-12T12:00:00" }

/-- Captured result of a `subprocess.run` call. -/
structure CmdResult where
  returncode : Int
  stdout : String
  stderr : String
deriving DecidableEq, Repr

/-- The external effects one deploy can observe: whether `git add`
raised (it runs with `check=True`; its exception is caught into a
500), and the captured `git commit` / `git push` results. -/
structure GitEnv where
  addRaises : Bool
  addErr : String
  commit : CmdResult
  push : CmdResult
deriving DecidableEq, Repr

/-- The `POST /api/deploy` response: HTTP 200 `{ok: true, message}` or
HTTP 500 `{error: detail}`. -/
inductive DeployResp where
  | ok (message : String)
  | err (detail : String)
deriving DecidableEq, Repr

/-- `POST /api/deploy` (`deploy`): load the collection (an exception,
e.g. a missing file, is caught into a 500), render and write
`news.html`, `git add` (check=True; an exception is caught into a
500), then `git commit` — a nonzero exit whose stdout reports
"nothing to commit" is the distinguished 200 success
`{ok: true, message: "変更はありません"}`; any other nonzero exit is a
500 tagged `git commit 失敗`; then `git push`, a nonzero exit being a
500 tagged `git push 失敗`; otherwise 200 with the deploy-done
message.  `msg` is the timestamped commit message; the second
component is the artifact written to `news.html` before the git
stages run (absent when loading failed). -/
def deploy (fs : Option NewsData) (msg : String) (env : GitEnv) :
    DeployResp × Option String :=
  match load_cards fs with
  | .error _ => (.err "FileNotFoundError", none)
  | .ok data =>
    let html := generate_news_html data.cards
    if env.addRaises then (.err env.addErr, some html)
    else if env.commit.returncode != 0 &&
        strContainsSub env.commit.stdout "nothing to commit" then
      (.ok "変更はありません", some html)
    else if env.commit.returncode != 0 then
      (.err ("git commit 失敗: " ++ env.commit.stderr), some html)
    else if env.push.returncode != 0 then
      (.err ("git push 失敗: " ++ env.push.stderr), some html)
    else (.ok ("デプロイ完了: " ++ msg), some html)

/-! ## Theorems -/

theorem modifyFirst_eq_none {p : Card → Bool} {f : Card → Card} :
    ∀ {l : List Card}, (∀ c ∈ l, p c = false) → modifyFirst p f l = none := by
  intro l
  induction l with
  | nil => intro _; rfl
  | cons c cs ih =>
    intro h
    simp only [modifyFirst, h c (by simp)]
    rw [ih (fun x hx => h x (by simp [hx]))]
    rfl

theorem modifyFirst_found {p : Card → Bool} {f : Card → Card} :
    ∀ (pre : List Card) (c : Card) (post : List Card),
      (∀ x ∈ pre, p x = false) → p c = true →
      modifyFirst p f (pre ++ c :: post) = some (pre ++ f c :: post, f c) := by
  intro pre
  induction pre with
  | nil =>
    intro c post _ hc
    simp [modifyFirst, hc]
  | cons a as ih =>
    intro c post hpre hc
    have ha : p a = false := hpre a (by simp)
    simp only [List.cons_append, modifyFirst, ha, Bool.false_eq_true, if_false,
      List.append_eq]
    rw [ih c post (fun x hx => hpre x (by simp [hx])) hc]
    simp

/-- Only the requested field changes: `title` after an update is the
body's title when present, else the old title. -/
theorem applyUpdate_title (body : JsonBody) (c : Card) :
    (applyUpdate body c).title = (body.getVal "title").getD c.title := by
  unfold applyUpdate
  cases body.getVal "title" <;> cases body.getVal "content" <;> simp

theorem applyUpdate_content (body : JsonBody) (c : Card) :
    (applyUpdate body c).content = (body.getVal "content").getD c.content := by
  unfold applyUpdate
  cases body.getVal "title" <;> cases body.getVal "content" <;> simp

theorem applyUpdate_immutable (body : JsonBody) (c : Card) :
    (applyUpdate body c).id = c.id ∧ (applyUpdate body c).date = c.date ∧
    (applyUpdate body c).date_display = c.date_display ∧
    (applyUpdate body c).visible = c.visible ∧
    (applyUpdate body c).created_at = c.created_at := by
  unfold applyUpdate
  cases body.getVal "title" <;> cases body.getVal "content" <;> simp

/-- Claim C1 (amended): `update` applies exactly the fields present in
the request and leaves absent fields untouched (an empty-string field
is applied as given, and `id`/`date`/`date_display`/`visible`/
`created_at` are never touched); a request naming an absent id fails
with `NotFound` and leaves the store unchanged; but an empty request
body `{}` is rejected with a 400 `ValidationError` ("request body
required") leaving the store unchanged — it is not a no-op returning
the card. -/
theorem update_card_partial_semantics (cid : String) (body : JsonBody) (data : NewsData) :
    (body = [] →
      update_card cid body data =
        (.error (.validation "リクエストボディが必要です"), data)) ∧
    (body ≠ [] → (∀ c ∈ data.cards, c.id ≠ cid) →
      update_card cid body data = (.error (.notFound "カードが見つかりません"), data)) ∧
    (body ≠ [] → ∀ pre c post, data.cards = pre ++ c :: post →
      (∀ x ∈ pre, x.id ≠ cid) → c.id = cid →
      ∃ c', update_card cid body data = (.ok c', ⟨pre ++ c' :: post⟩) ∧
        c'.title = (body.getVal "title").getD c.title ∧
        c'.content = (body.getVal "content").getD c.content ∧
        c'.id = c.id ∧ c'.date = c.date ∧ c'.date_display = c.date_display ∧
        c'.visible = c.visible ∧ c'.created_at = c.created_at) := by
  refine ⟨?_, ?_, ?_⟩
  · intro h
    subst h
    rfl
  · intro hne hnf
    obtain ⟨b, bs, rfl⟩ := List.exists_cons_of_ne_nil hne
    unfold update_card
    rw [modifyFirst_eq_none (fun c hc => beq_eq_false_iff_ne.mpr (hnf c hc))]
    rfl
  · intro hne pre c post hcards hpre hc
    obtain ⟨b, bs, rfl⟩ := List.exists_cons_of_ne_nil hne
    refine ⟨applyUpdate (b :: bs) c, ?_, applyUpdate_title _ _, applyUpdate_content _ _,
      (applyUpdate_immutable _ _).1, (applyUpdate_immutable _ _).2.1,
      (applyUpdate_immutable _ _).2.2.1, (applyUpdate_immutable _ _).2.2.2.1,
      (applyUpdate_immutable _ _).2.2.2.2⟩
    unfold update_card
    rw [hcards, modifyFirst_found pre c post
      (fun x hx => beq_eq_false_iff_ne.mpr (hpre x hx)) (beq_iff_eq.mpr hc)]
    rfl

/-- Claim C1 counterexample: on a one-card collection, `update(id, {})`
is not a no-op returning the unmodified card — the code rejects the
empty body with a 400 `ValidationError` before even reading the
store. -/
theorem update_card_empty_body_counterexample :
    update_card "news-20260101-item" ([] : JsonBody) ⟨[c0]⟩ ≠
      (Except.ok c0, ⟨[c0]⟩) ∧
    update_card "news-20260101-item" ([] : JsonBody) ⟨[c0]⟩ =
      (Except.error (ApiError.validation "リクエストボディが必要です"), ⟨[c0]⟩) := by
  refine ⟨fun h => ?_, rfl⟩
  have hfst : Except.error (ApiError.validation "リクエストボディが必要です") =
      Except.ok c0 := congrArg Prod.fst h
  exact Except.noConfusion hfst

/-- Witness for C1: concrete partial update `{title: "X"}` on a
one-card collection. -/
theorem update_card_partial_semantics_witness :
    ∃ c', update_card "news-20260101-item" [("title", "X")] ⟨[c0]⟩ =
        (Except.ok c', ⟨[] ++ c' :: []⟩) ∧
      c'.title = (JsonBody.getVal [("title", "X")] "title").getD c0.title ∧
      c'.content = (JsonBody.getVal [("title", "X")] "content").getD c0.content ∧
      c'.id = c0.id ∧ c'.date = c0.date ∧ c'.date_display = c0.date_display ∧
      c'.visible = c0.visible ∧ c'.created_at = c0.created_at :=
  (update_card_partial_semantics "news-20260101-item" [("title", "X")] ⟨[c0]⟩).2.2
    (by decide) [] c0 [] rfl (by simp) rfl

/-- Claim C8: deleting an id that matches no card answers `NotFound`
(404), detected by the length comparison after filtering, and the
persisted collection is exactly the one read (no write happens). -/
theorem delete_card_notFound (cid : String) (data : NewsData)
    (h : ∀ c ∈ data.cards, c.id ≠ cid) :
    delete_card cid data =
      (Except.error (ApiError.notFound "カードが見つかりません"), data) := by
  have hf : data.cards.filter (fun c => !(c.id == cid)) = data.cards := by
    apply List.filter_eq_self.mpr
    intro a ha
    simp [h a ha]
  unfold delete_card
  simp [hf]

/-- Witness for C8: concrete delete of an absent id. -/
theorem delete_card_notFound_witness :
    delete_card "news-absent" ⟨[c0]⟩ =
      (Except.error (ApiError.notFound "カードが見つかりません"), ⟨[c0]⟩) :=
  delete_card_notFound "news-absent" ⟨[c0]⟩ (by decide)

theorem flipVisible_flipVisible (c : Card) : flipVisible (flipVisible c) = c := by
  cases c
  simp [flipVisible]

/-- Claim C9: `toggle_card` flips exactly the `visible` field of the
(first) card with the given id, a second toggle restores the original
collection and card, and an absent id answers `NotFound` leaving the
store unchanged. -/
theorem toggle_card_correct (cid : String) (data : NewsData) :
    ((∀ c ∈ data.cards, c.id ≠ cid) →
      toggle_card cid data = (.error (.notFound "カードが見つかりません"), data)) ∧
    (∀ pre c post, data.cards = pre ++ c :: post →
      (∀ x ∈ pre, x.id ≠ cid) → c.id = cid →
      toggle_card cid data = (.ok (flipVisible c), ⟨pre ++ flipVisible c :: post⟩) ∧
      (flipVisible c).visible = !c.visible ∧
      (flipVisible c).title = c.title ∧ (flipVisible c).content = c.content ∧
      (flipVisible c).id = c.id ∧
      toggle_card cid (toggle_card cid data).2 = (.ok c, data)) := by
  constructor
  · intro h
    unfold toggle_card
    rw [modifyFirst_eq_none (fun c hc => beq_eq_false_iff_ne.mpr (h c hc))]
  · intro pre c post hcards hpre hc
    have h1 : toggle_card cid data =
        (.ok (flipVisible c), ⟨pre ++ flipVisible c :: post⟩) := by
      unfold toggle_card
      rw [hcards, modifyFirst_found pre c post
        (fun x hx => beq_eq_false_iff_ne.mpr (hpre x hx)) (beq_iff_eq.mpr hc)]
    have h2 : toggle_card cid (toggle_card cid data).2 = (.ok c, data) := by
      rw [h1]
      unfold toggle_card
      have hcid : (flipVisible c).id = cid := hc
      rw [modifyFirst_found pre (flipVisible c) post
        (fun x hx => beq_eq_false_iff_ne.mpr (hpre x hx)) (beq_iff_eq.mpr hcid)]
      rw [flipVisible_flipVisible]
      cases data
      simp only at hcards
      rw [← hcards]
    exact ⟨h1, rfl, rfl, rfl, rfl, h2⟩

/-- Witness for C9: concrete toggle (and double toggle) on a one-card
collection. -/
theorem toggle_card_correct_witness :
    toggle_card "news-20260101-item" ⟨[c0]⟩ =
      (.ok (flipVisible c0), ⟨[] ++ flipVisible c0 :: []⟩) ∧
    (flipVisible c0).visible = !c0.visible ∧
    (flipVisible c0).title = c0.title ∧ (flipVisible c0).content = c0.content ∧
    (flipVisible c0).id = c0.id ∧
    toggle_card "news-20260101-item"
        (toggle_card "news-20260101-item" ⟨[c0]⟩).2 = (.ok c0, ⟨[c0]⟩) :=
  (toggle_card_correct "news-20260101-item" ⟨[c0]⟩).2 [] c0 [] rfl (by simp) rfl

theorem dictGet_dictSet_self {α : Type} (m : List (String × α)) (k : String) (v : α) :
    dictGet (dictSet m k v) k = some v := by
  induction m with
  | nil => simp [dictSet, dictGet, List.find?]
  | cons p rest ih =>
    obtain ⟨k', v'⟩ := p
    by_cases hk : k' = k
    · simp [dictSet, hk, dictGet, List.find?]
    · simp only [dictSet, beq_eq_false_iff_ne.mpr hk, Bool.false_eq_true, if_false]
      simpa [dictGet, List.find?, beq_eq_false_iff_ne.mpr hk] using ih

theorem dictGet_dictSet_other {α : Type} (m : List (String × α)) (k k' : String) (v : α)
    (h : k' ≠ k) : dictGet (dictSet m k v) k' = dictGet m k' := by
  induction m with
  | nil => simp [dictSet, dictGet, List.find?, beq_eq_false_iff_ne.mpr (Ne.symm h)]
  | cons p rest ih =>
    obtain ⟨k₀, v₀⟩ := p
    by_cases hk : k₀ = k
    · subst hk
      simp [dictSet, dictGet, List.find?, beq_eq_false_iff_ne.mpr (Ne.symm h)]
    · simp only [dictSet, beq_eq_false_iff_ne.mpr hk, Bool.false_eq_true, if_false]
      by_cases h0 : k₀ = k'
      · simp [dictGet, List.find?, h0]
      · have hb : (k₀ == k') = false := beq_eq_false_iff_ne.mpr h0
        simp only [dictGet, List.find?, hb] at ih ⊢
        exact ih

theorem sum_dictSet_total (m : List (String × DayStats)) (k : String) (d' : DayStats)
    (h : d'.total = ((dictGet m k).getD ⟨0, []⟩).total + 1) :
    ((dictSet m k d').map (fun p => p.2.total)).sum =
      (m.map (fun p => p.2.total)).sum + 1 := by
  induction m with
  | nil =>
    simp [dictGet, List.find?] at h
    simp [dictSet, h]
  | cons p rest ih =>
    obtain ⟨k₀, v₀⟩ := p
    by_cases hk : k₀ = k
    · subst hk
      simp [dictGet, List.find?] at h
      simp [dictSet, h]
      omega
    · simp only [dictGet, List.find?, beq_eq_false_iff_ne.mpr hk] at h
      simp only [dictSet, beq_eq_false_iff_ne.mpr hk, Bool.false_eq_true, if_false,
        List.map_cons, List.sum_cons, ih (by simpa [dictGet] using h)]
      omega

theorem countVisit_preserves (today os : String) (data : VisitorStats)
    (h : data.total = sumDaily data) :
    (countVisit today os data).total = sumDaily (countVisit today os data) := by
  unfold countVisit sumDaily
  simp only
  rw [sum_dictSet_total data.daily today _ (by simp)]
  unfold sumDaily at h
  omega

theorem record_visit_preserves (today freshId : String) (req : VisitReq)
    (fs : Option VisitorStats)
    (h : (load_data fs).total = sumDaily (load_data fs)) :
    (load_data (record_visit today freshId req fs).2).total =
      sumDaily (load_data (record_visit today freshId req fs).2) := by
  unfold record_visit
  by_cases hc : ((req.visitor_id.getD "" != "") && (req.last_visit == some today)) = true
  · simpa [hc] using h
  · simp only [hc, Bool.false_eq_true, if_false]
    exact countVisit_preserves today (detect_os req.user_agent) (load_data fs) h

theorem runVisits_preserves (events : List (String × String × VisitReq))
    (fs : Option VisitorStats)
    (h : (load_data fs).total = sumDaily (load_data fs)) :
    (load_data (runVisits events fs)).total =
      sumDaily (load_data (runVisits events fs)) := by
  induction events generalizing fs with
  | nil => exact h
  | cons e rest ih =>
    exact ih ((record_visit e.1 e.2.1 e.2.2 fs).2)
      (record_visit_preserves e.1 e.2.1 e.2.2 fs h)

/-- Claim C6: a client presenting no correlation cookies is counted
(`total` + 1) and receives both the visitor-id and the last-visit
cookie; a second same-day visit presenting both cookies (last-visit
equal to today) is not counted and the backing file is untouched; a
visit with the same (non-empty) visitor id but a stale or absent
last-visit marker is counted again and both cookies are refreshed. -/
theorem record_visit_dedup (today freshId ua v lv : String) (fs : Option VisitorStats) :
    ((record_visit today freshId ⟨none, none, ua⟩ fs).1.counted = true ∧
      (record_visit today freshId ⟨none, none, ua⟩ fs).1.total =
        (load_data fs).total + 1 ∧
      (record_visit today freshId ⟨none, none, ua⟩ fs).1.cookies =
        some (freshId, today)) ∧
    (v ≠ "" →
      (record_visit today freshId ⟨some v, some today, ua⟩ fs).1.counted = false ∧
      (record_visit today freshId ⟨some v, some today, ua⟩ fs).1.total =
        (load_data fs).total ∧
      (record_visit today freshId ⟨some v, some today, ua⟩ fs).2 = fs) ∧
    (v ≠ "" → lv ≠ today →
      (record_visit today freshId ⟨some v, some lv, ua⟩ fs).1.counted = true ∧
      (record_visit today freshId ⟨some v, some lv, ua⟩ fs).1.total =
        (load_data fs).total + 1 ∧
      (record_visit today freshId ⟨some v, some lv, ua⟩ fs).1.cookies =
        some (v, today)) ∧
    (v ≠ "" →
      (record_visit today freshId ⟨some v, none, ua⟩ fs).1.counted = true ∧
      (record_visit today freshId ⟨some v, none, ua⟩ fs).1.cookies =
        some (v, today)) := by
  refine ⟨?_, fun hv => ?_, fun hv hlv => ?_, fun hv => ?_⟩
  · simp [record_visit, countVisit]
  · have hcond : ((Option.getD (some v) "" != "") &&
        ((some today : Option String) == some today)) = true := by
      simp [hv]
    simp [record_visit, hcond, hv]
  · have hcond : ((Option.getD (some v) "" != "") &&
        ((some lv : Option String) == some today)) = false := by
      simp [hlv]
    simp [record_visit, hcond, countVisit, hv, hlv]
  · have hcond : ((Option.getD (some v) "" != "") &&
        ((none : Option String) == some today)) = false := by
      simp
    simp [record_visit, hcond, countVisit, hv]

/-- Witness for C6: concrete first / same-day / next-day visits. -/
theorem record_visit_dedup_witness :
    (record_visit "2026-10-12" "uuid-1" ⟨none, none, "Windows NT 10.0"⟩ none).1.counted
        = true ∧
    (record_visit "2026-10-12" "uuid-1"
        ⟨some "abc", some "2026-10-12", "Windows NT 10.0"⟩ none).1.counted = false ∧
    (record_visit "2026-10-12" "uuid-1"
        ⟨some "abc", some "2026-10-11", "Windows NT 10.0"⟩ none).1.counted = true := by
  have h := record_visit_dedup "2026-10-12" "uuid-1" "Windows NT 10.0" "abc"
    "2026-10-11" none
  exact ⟨h.1.1, (h.2.1 (by decide)).1, (h.2.2.1 (by decide) (by decide)).1⟩

/-- Claim C7: a counted visit increments `total` by exactly 1, exactly
one `by_os` entry by exactly 1, and today's daily record — its `total`
and exactly one of its `by_os` entries — by exactly 1, all in the one
document passed to `save_data`; the invariant `total = Σ per-day
totals` is preserved by this write, and consequently holds after any
sequence of `/api/visit` calls starting from the empty (absent) stats
document. -/
theorem countVisit_exact_increments (today os : String) (data : VisitorStats)
    (events : List (String × String × VisitReq)) :
    ((countVisit today os data).total = data.total + 1) ∧
    (dictGet (countVisit today os data).by_os os =
      some ((dictGet data.by_os os).getD 0 + 1)) ∧
    (∀ k, k ≠ os →
      dictGet (countVisit today os data).by_os k = dictGet data.by_os k) ∧
    (∃ day', dictGet (countVisit today os data).daily today = some day' ∧
      day'.total = ((dictGet data.daily today).getD ⟨0, []⟩).total + 1 ∧
      dictGet day'.by_os os =
        some ((dictGet ((dictGet data.daily today).getD ⟨0, []⟩).by_os os).getD 0 + 1) ∧
      (∀ k, k ≠ os → dictGet day'.by_os k =
        dictGet ((dictGet data.daily today).getD ⟨0, []⟩).by_os k)) ∧
    (∀ k, k ≠ today →
      dictGet (countVisit today os data).daily k = dictGet data.daily k) ∧
    (data.total = sumDaily data →
      (countVisit today os data).total = sumDaily (countVisit today os data)) ∧
    ((load_data (runVisits events none)).total =
      sumDaily (load_data (runVisits events none))) := by
  refine ⟨rfl, ?_, ?_, ?_, ?_, countVisit_preserves today os data,
    runVisits_preserves events none rfl⟩
  · exact dictGet_dictSet_self _ _ _
  · intro k hk
    exact dictGet_dictSet_other _ _ _ _ hk
  · refine ⟨_, dictGet_dictSet_self _ _ _, rfl, dictGet_dictSet_self _ _ _, ?_⟩
    intro k hk
    exact dictGet_dictSet_other _ _ _ _ hk
  · intro k hk
    exact dictGet_dictSet_other _ _ _ _ hk

/-- Witness for C7: the count and the invariant at a concrete document
that satisfies `total = Σ daily totals`. -/
theorem countVisit_exact_increments_witness :
    (countVisit "2026-10-12" "iOS" d1).total = d1.total + 1 ∧
    (countVisit "2026-10-12" "iOS" d1).total =
      sumDaily (countVisit "2026-10-12" "iOS" d1) := by
  refine ⟨(countVisit_exact_increments "2026-10-12" "iOS" d1 []).1, ?_⟩
  exact (countVisit_exact_increments "2026-10-12" "iOS" d1 []).2.2.2.2.2.1 (by decide)

/-- Claim C2 counterexample: on a missing backing file it is not the
case that both reads "fail with a NotFound classification that the
caller translates into a default document rather than crashing the
request": the card-collection request yields no document at all (the
FileNotFoundError propagates uncaught, the request answers HTTP 500),
and the visitor-stats read never fails — `load_data` itself already
returns the default document, so there is no failing store operation
for a caller to translate. -/
theorem missing_file_counterexample :
    (∀ cs : List Card, get_cards none ≠ Except.ok cs) ∧
    load_data none = { total := 0, by_os := [], daily := [] } := by
  refine ⟨fun cs h => ?_, rfl⟩
  exact Except.noConfusion h

/-- Claim C2 (amended): on a missing backing file the card store read
fails with the FileNotFound classification and that failure propagates
uncaught through `GET /api/cards` (HTTP 500); the visitor-stats read
does not fail — it translates the missing file itself into the default
empty document `{total: 0, by_os: {}, daily: {}}`, so `GET /api/stats`
answers the default rather than crashing. -/
theorem missing_file_reads :
    load_cards none = Except.error StoreError.fileNotFound ∧
    get_cards none = Except.error StoreError.fileNotFound ∧
    load_data none = { total := 0, by_os := [], daily := [] } ∧
    get_stats none = (0, [], []) :=
  ⟨rfl, rfl, rfl, rfl⟩

theorem subStr_refl (n : String) : SubStr n n :=
  ⟨[], [], by simp⟩

theorem subStr_append_left {n a : String} (h : SubStr n a) (b : String) :
    SubStr n (a ++ b) := by
  obtain ⟨s, t, hs⟩ := h
  exact ⟨s, t ++ b.data, by simp [String.data_append, hs]⟩

theorem subStr_append_right {n b : String} (a : String) (h : SubStr n b) :
    SubStr n (a ++ b) := by
  obtain ⟨s, t, hs⟩ := h
  exact ⟨a.data ++ s, t, by simp [String.data_append, hs]⟩

/-- Each article block contains the card's id, escaped title,
date_display, escaped content, and the full untouched
`data-news-id="<id>">` attribute region. -/
theorem articleFor_contains (c : Card) :
    SubStr c.id (articleFor c) ∧
    SubStr (escapeHtml c.title) (articleFor c) ∧
    SubStr c.date_display (articleFor c) ∧
    SubStr (escapeHtml c.content) (articleFor c) ∧
    SubStr ("data-news-id=\"" ++ c.id ++ "\">") (articleFor c) := by
  unfold articleFor
  refine ⟨?_, ?_, ?_, ?_, ?_⟩
  · exact subStr_append_left (subStr_append_left (subStr_append_left (subStr_append_left
      (subStr_append_left (subStr_append_left (subStr_append_left (subStr_append_left
      (subStr_append_right _ (subStr_refl _)) _) _) _) _) _) _) _) _
  · exact subStr_append_left (subStr_append_left (subStr_append_left (subStr_append_left
      (subStr_append_left (subStr_append_right _ (subStr_refl _)) _) _) _) _) _
  · exact subStr_append_left (subStr_append_left (subStr_append_left
      (subStr_append_right _ (subStr_refl _)) _) _) _
  · exact subStr_append_left (subStr_append_right _ (subStr_refl _)) _
  · exact subStr_append_left (subStr_append_left (subStr_append_left (subStr_append_left
      (subStr_append_left (subStr_append_left (subStr_append_left
      ⟨"        <article class=\"news-item\" ".data, [],
        by simp [String.data_append]⟩ _) _) _) _) _) _) _

/-- A substring of some member's article block occurs in the
concatenated articles. -/
theorem subStr_articlesOf {c : Card} {n : String} (h : SubStr n (articleFor c)) :
    ∀ {l : List Card}, c ∈ l → SubStr n (articlesOf l) := by
  intro l
  induction l with
  | nil => intro hm; cases hm
  | cons a as ih =>
    intro hm
    rcases List.mem_cons.mp hm with h1 | h2
    · subst h1
      exact subStr_append_left h (articlesOf as)
    · exact subStr_append_right (articleFor a) (ih h2)

/-- Claim C4 (amended): render keeps exactly the visible cards in
their existing order — the output is the fixed template around the
concatenated article blocks of the visible cards, in sequence order —
and for each kept card the output contains its HTML-escaped title and
content (& replaced first, then < and >) together with its
date_display and id; a card with `visible = false` contributes
nothing: the output is identical to the output for the collection with
that card removed.  (Its raw field text can therefore still occur in
the output only via other cards or the fixed template, so the original
"appears nowhere in the output text" is not literally guaranteed.) -/
theorem generate_news_html_correct (cards : List Card) :
    generate_news_html cards =
      htmlPre ++ articlesOf (cards.filter (fun c => c.visible)) ++ htmlPost ∧
    (∀ c ∈ cards, c.visible = true →
      SubStr (escapeHtml c.title) (generate_news_html cards) ∧
      SubStr (escapeHtml c.content) (generate_news_html cards) ∧
      SubStr c.date_display (generate_news_html cards) ∧
      SubStr c.id (generate_news_html cards)) ∧
    (∀ pre c post, cards = pre ++ c :: post → c.visible = false →
      generate_news_html cards = generate_news_html (pre ++ post)) := by
  refine ⟨rfl, ?_, ?_⟩
  · intro c hc hv
    have hmem : c ∈ cards.filter (fun c => c.visible) :=
      List.mem_filter.mpr ⟨hc, by simp [hv]⟩
    have lift : ∀ {n : String}, SubStr n (articleFor c) →
        SubStr n (generate_news_html cards) := by
      intro n hn
      exact subStr_append_left (subStr_append_right htmlPre
        (subStr_articlesOf hn hmem)) htmlPost
    exact ⟨lift (articleFor_contains c).2.1, lift (articleFor_contains c).2.2.2.1,
      lift (articleFor_contains c).2.2.1, lift (articleFor_contains c).1⟩
  · intro pre c post hc hv
    subst hc
    unfold generate_news_html
    rw [List.filter_append, List.filter_append, List.filter_cons]
    simp [hv]

/-- Claim C4 counterexample: the hidden card `cH` has `visible = false`,
yet its title does occur in the rendered output of `[cV, cH]` (the
visible card's `date_display` is the same text), so "for every card
with visible == false, that card's title … appear nowhere in the
output text" is false as stated. -/
theorem hidden_field_in_output_counterexample :
    cH.visible = false ∧ SubStr cH.title (generate_news_html [cV, cH]) := by
  refine ⟨rfl, ?_⟩
  have h1 : SubStr cH.title (articleFor cV) := by
    have he : cH.title = cV.date_display := rfl
    rw [he]
    exact (articleFor_contains cV).2.2.1
  exact subStr_append_left (subStr_append_right htmlPre
    (subStr_append_left h1 (articlesOf []))) htmlPost

/-- Witness for C4: the containment and hidden-card-removal parts at
the concrete collection `[cV, cH]`. -/
theorem generate_news_html_correct_witness :
    SubStr (escapeHtml cV.title) (generate_news_html [cV, cH]) ∧
    SubStr cV.id (generate_news_html [cV, cH]) ∧
    generate_news_html [cV, cH] = generate_news_html ([cV] ++ []) := by
  refine ⟨?_, ?_, ?_⟩
  · exact ((generate_news_html_correct [cV, cH]).2.1 cV (by simp) rfl).1
  · exact ((generate_news_html_correct [cV, cH]).2.1 cV (by simp) rfl).2.2.2
  · exact (generate_news_html_correct [cV, cH]).2.2 [cV] cH [] rfl rfl

/-- Bridge from core's fuelled `Nat.toDigitsCore` to Mathlib's
`Nat.digits` (base 10, positive input, sufficient fuel). -/
theorem toDigitsCore_eq_digits :
    ∀ (f n : Nat) (ds : List Char), 0 < n → n < f →
      Nat.toDigitsCore 10 f n ds =
        ((Nat.digits 10 n).map Nat.digitChar).reverse ++ ds := by
  intro f
  induction f with
  | zero =>
    intro n ds h1 h2
    omega
  | succ f ih =>
    intro n ds h1 h2
    rw [Nat.toDigitsCore]
    rw [Nat.digits_def' (b := 10) (by norm_num) h1]
    by_cases h0 : n / 10 = 0
    · simp [h0]
    · have hlt : n / 10 < f := by
        have := Nat.div_lt_self h1 (by norm_num : 1 < 10)
        omega
      rw [if_neg h0, ih (n / 10) (Nat.digitChar (n % 10) :: ds)
        (Nat.pos_of_ne_zero h0) hlt]
      simp

theorem repr_eq_digits (n : Nat) (h : 0 < n) :
    Nat.repr n = List.asString (((Nat.digits 10 n).map Nat.digitChar).reverse) := by
  show (Nat.toDigits 10 n).asString = _
  unfold Nat.toDigits
  rw [toDigitsCore_eq_digits (n + 1) n [] h (by omega), List.append_nil]

theorem digitChar_injOn : ∀ a < 10, ∀ b < 10,
    Nat.digitChar a = Nat.digitChar b → a = b := by
  decide

theorem map_digitChar_inj :
    ∀ (l1 l2 : List Nat), (∀ x ∈ l1, x < 10) → (∀ x ∈ l2, x < 10) →
      l1.map Nat.digitChar = l2.map Nat.digitChar → l1 = l2 := by
  intro l1
  induction l1 with
  | nil =>
    intro l2 _ _ h
    cases l2 with
    | nil => rfl
    | cons b bs => simp at h
  | cons a as ih =>
    intro l2 h1 h2 h
    cases l2 with
    | nil => simp at h
    | cons b bs =>
      simp only [List.map_cons, List.cons.injEq] at h
      have ha := digitChar_injOn a (h1 a (by simp)) b (h2 b (by simp)) h.1
      rw [ha, ih bs (fun x hx => h1 x (by simp [hx]))
        (fun x hx => h2 x (by simp [hx])) h.2]

theorem asString_inj {l1 l2 : List Char} (h : List.asString l1 = List.asString l2) :
    l1 = l2 := by
  have := congrArg String.data h
  simpa [List.asString] using this

theorem digits_eq_of_repr_eq {m n : Nat} (hm : 0 < m) (hn : 0 < n)
    (h : Nat.repr m = Nat.repr n) : Nat.digits 10 m = Nat.digits 10 n := by
  rw [repr_eq_digits m hm, repr_eq_digits n hn] at h
  have h2 := List.reverse_injective (asString_inj h)
  exact map_digitChar_inj _ _
    (fun x hx => Nat.digits_lt_base (by norm_num) hx)
    (fun x hx => Nat.digits_lt_base (by norm_num) hx) h2

/-- Decimal representations of distinct naturals differ — needed for
the pairwise distinctness of the probed candidate ids. -/
theorem natRepr_injective : Function.Injective Nat.repr := by
  intro m n h
  rcases Nat.eq_zero_or_pos m with hm | hm
  · rcases Nat.eq_zero_or_pos n with hn | hn
    · omega
    · exfalso
      subst hm
      rw [repr_eq_digits n hn] at h
      have h2 : ['0'] = ((Nat.digits 10 n).map Nat.digitChar).reverse :=
        asString_inj h
      have h3 : (Nat.digits 10 n).map Nat.digitChar = ['0'] := by
        have := congrArg List.reverse h2
        simpa using this.symm
      have h4 : Nat.digits 10 n = [0] :=
        map_digitChar_inj _ [0]
          (fun x hx => Nat.digits_lt_base (by norm_num) hx)
          (by simp) (by simpa using h3)
      have h5 : n = 0 := by
        have := congrArg (Nat.ofDigits 10) h4
        rw [Nat.ofDigits_digits] at this
        simpa [Nat.ofDigits] using this
      omega
  · rcases Nat.eq_zero_or_pos n with hn | hn
    · exfalso
      subst hn
      rw [repr_eq_digits m hm] at h
      have h2 : ((Nat.digits 10 m).map Nat.digitChar).reverse = ['0'] :=
        asString_inj h
      have h3 : (Nat.digits 10 m).map Nat.digitChar = ['0'] := by
        have := congrArg List.reverse h2
        simpa using this
      have h4 : Nat.digits 10 m = [0] :=
        map_digitChar_inj _ [0]
          (fun x hx => Nat.digits_lt_base (by norm_num) hx)
          (by simp) (by simpa using h3)
      have h5 : m = 0 := by
        have := congrArg (Nat.ofDigits 10) h4
        rw [Nat.ofDigits_digits] at this
        simpa [Nat.ofDigits] using this
      omega
    · have hd := digits_eq_of_repr_eq hm hn h
      have := congrArg (Nat.ofDigits 10) hd
      rwa [Nat.ofDigits_digits, Nat.ofDigits_digits] at this

theorem candId_injective (base : String) : Function.Injective (candId base) := by
  intro i j h
  unfold candId at h
  have h1 : (base ++ "-").data ++ (Nat.repr i).data =
      (base ++ "-").data ++ (Nat.repr j).data := by
    simpa [String.data_append, List.append_assoc] using congrArg String.data h
  exact natRepr_injective (String.ext (List.append_cancel_left h1))

/-- Correctness of the probe loop: given enough fuel to reach a free
candidate, it returns the least free candidate at or above `i`. -/
theorem probeId_spec (base : String) (ids : List String) :
    ∀ (fuel i : Nat),
      (∃ j, i ≤ j ∧ j < i + fuel ∧ candId base j ∉ ids) →
      ∃ k, i ≤ k ∧ probeId base ids fuel i = candId base k ∧
        candId base k ∉ ids ∧ (∀ j, i ≤ j → j < k → candId base j ∈ ids) := by
  intro fuel
  induction fuel with
  | zero =>
    intro i h
    obtain ⟨j, hj1, hj2, _⟩ := h
    omega
  | succ f ih =>
    intro i h
    obtain ⟨j, hj1, hj2, hj3⟩ := h
    by_cases hi : candId base i ∈ ids
    · have hij : i ≠ j := fun he => hj3 (he ▸ hi)
      obtain ⟨k, hk1, hk2, hk3, hk4⟩ := ih (i + 1) ⟨j, by omega, by omega, hj3⟩
      refine ⟨k, by omega, ?_, hk3, ?_⟩
      · simpa [probeId, hi] using hk2
      · intro j' hj'1 hj'2
        rcases Nat.eq_or_lt_of_le hj'1 with he | hlt
        · exact he ▸ hi
        · exact hk4 j' (by omega) hj'2
    · exact ⟨i, Nat.le_refl i, by simp [probeId, hi], hi, by omega⟩

/-- Pigeonhole: among the `ids.length + 1` pairwise distinct candidates
`base-2`, …, `base-(ids.length + 2)` at least one is not in `ids`. -/
theorem exists_free_cand (base : String) (ids : List String) :
    ∃ j, 2 ≤ j ∧ j < 2 + (ids.length + 1) ∧ candId base j ∉ ids := by
  by_contra hall
  push_neg at hall
  have hsub : (List.range' 2 (ids.length + 1)).map (candId base) ⊆ ids := by
    intro x hx
    obtain ⟨j, hj, rfl⟩ := List.mem_map.mp hx
    obtain ⟨hj1, hj2⟩ := List.mem_range'_1.mp hj
    exact hall j hj1 hj2
  have hnd : ((List.range' 2 (ids.length + 1)).map (candId base)).Nodup :=
    (List.nodup_range' 2 (ids.length + 1)).map (candId_injective base)
  have hle := (hnd.subperm hsub).length_le
  simp at hle

/-- The id returned by the probe as `create_card` calls it: free, with
suffix index at least 2, and all smaller suffixes taken. -/
theorem probeId_create (base : String) (ids : List String) :
    ∃ k, 2 ≤ k ∧ probeId base ids (ids.length + 1) 2 = candId base k ∧
      candId base k ∉ ids ∧ (∀ j, 2 ≤ j → j < k → candId base j ∈ ids) :=
  probeId_spec base ids (ids.length + 1) 2
    (by simpa using exists_free_cand base ids)

/-- The id chosen by `create_card` is free; it is the base id exactly
when that is free, else the least free suffix candidate. -/
theorem newCardId_spec (base : String) (ids : List String) :
    newCardId base ids ∉ ids ∧
    (base ∉ ids → newCardId base ids = base) ∧
    (base ∈ ids → ∃ k, 2 ≤ k ∧ newCardId base ids = candId base k ∧
      (∀ j, 2 ≤ j → j < k → candId base j ∈ ids)) := by
  by_cases h : base ∈ ids
  · obtain ⟨k, hk1, hk2, hk3, hk4⟩ := probeId_create base ids
    refine ⟨?_, fun hn => absurd h hn, fun _ => ⟨k, hk1, ?_, hk4⟩⟩
    · unfold newCardId
      rw [if_pos h, hk2]
      exact hk3
    · unfold newCardId
      rw [if_pos h]
      exact hk2
  · refine ⟨?_, fun _ => ?_, fun hin => absurd hin h⟩ <;>
      unfold newCardId <;> rw [if_neg h]
    exact h

/-- Claim C3: with non-empty title and content, `create` returns a
card whose id is `news-<YYYYMMDD>-<slug>` when that id is free in the
collection, and otherwise the first free candidate among `-2`, `-3`, …
(all smaller suffixes being taken); the returned id is distinct from
every existing id and the card is inserted at the head of the
sequence; a missing or empty title or content is a 400
`ValidationError`. -/
theorem create_card_correct (body : CreateBody) (now : Now) (data : NewsData) :
    (body.title.getD "" = "" ∨ body.content.getD "" = "" →
      create_card body now data =
        (.error (.validation "title と content は必須です"), data)) ∧
    (body.title.getD "" ≠ "" → body.content.getD "" ≠ "" →
      ∃ card, create_card body now data = (.ok card, ⟨card :: data.cards⟩) ∧
        card.id ∉ data.cards.map (fun c => c.id) ∧
        (("news-" ++ (now.dateStr.replace "-" "") ++ "-" ++ body.slug.getD "item") ∉
            data.cards.map (fun c => c.id) →
          card.id =
            "news-" ++ (now.dateStr.replace "-" "") ++ "-" ++ body.slug.getD "item") ∧
        (("news-" ++ (now.dateStr.replace "-" "") ++ "-" ++ body.slug.getD "item") ∈
            data.cards.map (fun c => c.id) →
          ∃ k, 2 ≤ k ∧
            card.id = candId
              ("news-" ++ (now.dateStr.replace "-" "") ++ "-" ++ body.slug.getD "item") k ∧
            (∀ j, 2 ≤ j → j < k →
              candId ("news-" ++ (now.dateStr.replace "-" "") ++ "-" ++
                body.slug.getD "item") j ∈ data.cards.map (fun c => c.id)))) := by
  constructor
  · intro h
    rw [create_card, if_pos h]
  · intro ht hc
    have hcond : ¬(body.title.getD "" = "" ∨ body.content.getD "" = "") := by
      rintro (h | h)
      · exact ht h
      · exact hc h
    refine ⟨{ id := newCardId ("news-" ++ (now.dateStr.replace "-" "") ++ "-" ++ body.slug.getD "item") (data.cards.map (fun c => c.id)),
              title := body.title.getD "", content := body.content.getD "",
              date := now.dateStr,
              date_display := Nat.repr now.year ++ "年" ++ Nat.repr now.month ++ "月" ++
                Nat.repr now.day ++ "日",
              visible := true, created_at := now.isoSeconds }, ?_, ?_, ?_, ?_⟩
    · rw [create_card, if_neg hcond]
    · exact (newCardId_spec _ _).1
    · exact (newCardId_spec _ _).2.1
    · exact (newCardId_spec _ _).2.2

/-- Witness for C3: a concrete rejected creation (missing title) and a
concrete successful creation into the empty collection. -/
theorem create_card_correct_witness :
    create_card ⟨none, some "c", none⟩ now0 ⟨[]⟩ =
      (.error (.validation "title と content は必須です"), ⟨[]⟩) ∧
    ∃ card, create_card ⟨some "t", some "c", none⟩ now0 ⟨[]⟩ =
        (.ok card, ⟨card :: ([] : List Card)⟩) ∧
      card.id ∉ ([] : List Card).map (fun c => c.id) ∧
      (("news-" ++ (now0.dateStr.replace "-" "") ++ "-" ++ "item") ∉
          ([] : List Card).map (fun c => c.id) →
        card.id = "news-" ++ (now0.dateStr.replace "-" "") ++ "-" ++ "item") ∧
      (("news-" ++ (now0.dateStr.replace "-" "") ++ "-" ++ "item") ∈
          ([] : List Card).map (fun c => c.id) →
        ∃ k, 2 ≤ k ∧
          card.id = candId ("news-" ++ (now0.dateStr.replace "-" "") ++ "-" ++ "item") k ∧
          (∀ j, 2 ≤ j → j < k →
            candId ("news-" ++ (now0.dateStr.replace "-" "") ++ "-" ++ "item") j ∈
              ([] : List Card).map (fun c => c.id))) :=
  ⟨(create_card_correct ⟨none, some "c", none⟩ now0 ⟨[]⟩).1 (Or.inl rfl),
   (create_card_correct ⟨some "t", some "c", none⟩ now0 ⟨[]⟩).2
     (by decide) (by decide)⟩

/-- Claim C10: `create_card` performs no validation or sanitization of
the caller-supplied slug: with slug `x">y` (HTML metacharacters), the
created card's id contains `"` and `>` verbatim, and the renderer
embeds the id into the `data-news-id` attribute without escaping (only
`title` and `content` pass through the escape chain), so those
characters appear unescaped inside the attribute region of the
output. -/
theorem slug_unsanitized (now : Now) (data : NewsData)
    (hfree : ("news-" ++ (now.dateStr.replace "-" "") ++ "-" ++ "x\">y") ∉
      data.cards.map (fun c => c.id)) :
    ∃ card, create_card ⟨some "t", some "c", some "x\">y"⟩ now data =
        (.ok card, ⟨card :: data.cards⟩) ∧
      card.id = "news-" ++ (now.dateStr.replace "-" "") ++ "-" ++ "x\">y" ∧
      '"' ∈ card.id.data ∧ '>' ∈ card.id.data ∧
      SubStr ("data-news-id=\"" ++ card.id ++ "\">") (generate_news_html [card]) := by
  have hcond : ¬((some "t" : Option String).getD "" = "" ∨
      (some "c" : Option String).getD "" = "") := by
    simp
  refine ⟨{ id := newCardId ("news-" ++ (now.dateStr.replace "-" "") ++ "-" ++ "x\">y") (data.cards.map (fun c => c.id)),
            title := "t", content := "c", date := now.dateStr,
            date_display := Nat.repr now.year ++ "年" ++ Nat.repr now.month ++ "月" ++
              Nat.repr now.day ++ "日",
            visible := true, created_at := now.isoSeconds }, ?_, ?_, ?_, ?_, ?_⟩
  · rw [create_card, if_neg hcond]
    exact rfl
  · exact (newCardId_spec _ _).2.1 hfree
  · show ('"' : Char) ∈ (newCardId ("news-" ++ (now.dateStr.replace "-" "") ++ "-" ++ "x\">y") (data.cards.map (fun c => c.id))).data
    rw [(newCardId_spec _ _).2.1 hfree, String.data_append]
    exact List.mem_append_right _ (by decide)
  · show ('>' : Char) ∈ (newCardId ("news-" ++ (now.dateStr.replace "-" "") ++ "-" ++ "x\">y") (data.cards.map (fun c => c.id))).data
    rw [(newCardId_spec _ _).2.1 hfree, String.data_append]
    exact List.mem_append_right _ (by decide)
  · exact subStr_append_left (subStr_append_right htmlPre
      (subStr_append_left (articleFor_contains _).2.2.2.2 (articlesOf []))) htmlPost

/-- Witness for C10: the concrete metacharacter slug against the empty
collection. -/
theorem slug_unsanitized_witness :
    ∃ card, create_card ⟨some "t", some "c", some "x\">y"⟩ now0 ⟨[]⟩ =
        (.ok card, ⟨card :: ([] : List Card)⟩) ∧
      card.id = "news-" ++ (now0.dateStr.replace "-" "") ++ "-" ++ "x\">y" ∧
      '"' ∈ card.id.data ∧ '>' ∈ card.id.data ∧
      SubStr ("data-news-id=\"" ++ card.id ++ "\">") (generate_news_html [card]) :=
  slug_unsanitized now0 ⟨[]⟩ (by simp)

/-- Claim C5: when the commit stage exits nonzero and its stdout
reports "nothing to commit" (no staged changes), deploy answers the
distinguished HTTP 200 success `{ok: true, message: "変更はありません"}`,
not an error; any other nonzero commit exit is surfaced as a 500
failure tagged with the commit stage (`git commit 失敗`). -/
theorem deploy_nothing_to_commit (fs : Option NewsData) (d : NewsData) (msg : String)
    (env : GitEnv) (hfs : fs = some d) (hadd : env.addRaises = false)
    (hrc : env.commit.returncode ≠ 0) :
    (strContainsSub env.commit.stdout "nothing to commit" = true →
      (deploy fs msg env).1 = .ok "変更はありません") ∧
    (strContainsSub env.commit.stdout "nothing to commit" = false →
      (deploy fs msg env).1 = .err ("git commit 失敗: " ++ env.commit.stderr)) := by
  subst hfs
  have hb : (env.commit.returncode != 0) = true := by
    simpa using hrc
  constructor
  · intro h
    simp [deploy, load_cards, hadd, hb, h]
  · intro h
    simp [deploy, load_cards, hadd, hb, h]

/-- Witness for C5: a concrete "nothing to commit" outcome. -/
theorem deploy_nothing_to_commit_witness :
    (deploy (some ⟨[c0]⟩) "Update news - 2026-10-12 12:00"
        ⟨false, "",
          ⟨1, "On branch main\nnothing to commit, working tree clean\n", ""⟩,
          ⟨0, "", ""⟩⟩).1 = .ok "変更はありません" :=
  (deploy_nothing_to_commit (some ⟨[c0]⟩) ⟨[c0]⟩ "Update news - 2026-10-12 12:00"
      ⟨false, "",
        ⟨1, "On branch main\nnothing to commit, working tree clean\n", ""⟩,
        ⟨0, "", ""⟩⟩
      rfl rfl (by decide)).1 (by decide)

end MyPortal
